import Mathlib

/-!
Verification of the credential-phishing detection engine.

This file gives a shallow embedding, in Lean 4, of the decision logic of the
repository (login-intent detection, domain heuristics, blacklist store,
external-source orchestration, and risk fusion), together with theorems
settling the specification claims about that logic.  Machine integers are
modelled as `Int`/`Nat` (no overflow is reachable: all scores are small sums
of constants), Python dictionaries of well-known keys are modelled as
structures of `Option` fields, and the external HTTP world is modelled as an
explicit outcome datatype passed into the functions that consume it.
-/

namespace CredPhish

/-- String containment helper: `listHasLead pat s` holds when `pat` matches at
the head of `s`.  Used to model Python substring tests (`x in s`, and
`re.search` of a literal pattern). -/
def listHasLead : List Char → List Char → Bool
  | [], _ => true
  | _ :: _, [] => false
  | p :: ps, c :: cs => p == c && listHasLead ps cs

/-- Substring test on character lists: `pat` occurs contiguously in `s`. -/
def listHasSub (pat : List Char) : List Char → Bool
  | [] => pat.isEmpty
  | c :: cs => listHasLead pat (c :: cs) || listHasSub pat cs

/-- Model of Python `pat in s` / `re.search(literal, s)`: `pat` occurs as a
contiguous substring of `s`. -/
def strContains (s pat : String) : Bool :=
  listHasSub pat.data s.data

/-- Model of Python `s.startswith(pre)`. -/
def strStarts (s pre : String) : Bool :=
  listHasLead pre.data s.data

/-- Model of Python `str.lower()` (ASCII case folding, the alphabet every
claim ranges over). -/
def strLower (s : String) : String :=
  ⟨s.data.map Char.toLower⟩

/-- Model of Python `str.upper()`. -/
def strUpper (s : String) : String :=
  ⟨s.data.map Char.toUpper⟩

/-- Risk tiers (`app/models/analysis_result.py`, `RiskLevel`). -/
inductive RiskLevel where
  | low
  | medium
  | high
deriving DecidableEq, Repr

/-- The `.value` string of each tier. -/
def RiskLevel.value : RiskLevel → String
  | .low => "low"
  | .medium => "medium"
  | .high => "high"

/-- Enforcement actions (`app/models/analysis_result.py`, `Action`). -/
inductive Action where
  | blocked
  | warned
  | allowed
deriving DecidableEq, Repr

/-- The numeric priority used for every tier comparison in the system
(`risk_priority` dictionaries in `risk_calculator.py` and
`external_api/__init__.py`): HIGH 3, MEDIUM 2, LOW 1. -/
def riskPriority : RiskLevel → Nat
  | .high => 3
  | .medium => 2
  | .low => 1

/-- The `details` mapping of an external verdict (`Dict[str, Any]` in
Python), modelled by its well-known keys: a key absent from the dictionary is
`none`.  (The raw `matches` list stored by the Google Safe Browsing adapter
is opaque JSON never read back; its extracted `threat_types` are modelled.) -/
structure Details where
  threat_types : Option (List String) := none
  threat_count : Option Int := none
  malicious_count : Option Int := none
  suspicious_count : Option Int := none
  harmless_count : Option Int := none
  undetected_count : Option Int := none
  total_scanners : Option Int := none
  reputation : Option Int := none
  last_analysis_date : Option Int := none
  in_database : Option Bool := none
  valid : Option Bool := none
  phish_id : Option String := none
  phish_detail_url : Option String := none
  verified : Option Bool := none
  verified_at : Option String := none
  error : Option String := none
  checked : Option Bool := none
deriving DecidableEq, Repr

/-- One external source verdict (`ExternalAPIResult` model). -/
structure ExternalAPIResult where
  api_name : String
  is_threat : Bool
  risk_level : RiskLevel
  details : Details
  response_time_ms : Int
deriving DecidableEq, Repr

/-- The final verdict (`AnalysisResult` model). -/
structure AnalysisResult where
  is_login_attempt : Bool
  is_phishing : Bool
  risk_level : RiskLevel
  score : Int
  reasons : List String
  action : Action
  warning_page_url : Option String
  external_api_results : List ExternalAPIResult
  risk_decision_source : String
deriving DecidableEq, Repr

/-- The internal-analysis dictionary assembled by
`PhishingAnalyzer.analyze` and consumed by `RiskCalculator`; every key the
calculator reads is a field. -/
structure InternalAnalysis where
  url : String := ""
  in_blacklist : Bool
  is_ip_address : Bool
  has_suspicious_pattern : Bool
  subdomain_depth : Nat
  domain : String := ""
  tld : String := ""
  hostname : String := ""
  is_valid_url : Bool
deriving DecidableEq, Repr

/-- The configuration surface the risk engine reads (`app/config.py`,
`Settings`): the two risk-score thresholds, with their defaults. -/
structure Settings where
  risk_threshold_high : Int := 70
  risk_threshold_medium : Int := 40
deriving DecidableEq, Repr

/-- The default settings (`Settings()` with no environment overrides). -/
def defaultSettings : Settings := {}

/-- `RiskCalculator._calculate_internal_score`: additive scoring with the
reason strings appended in the source order. -/
def calculateInternalScore (analysis : InternalAnalysis) : Int × List String :=
  let acc : Int × List String := (0, [])
  let acc := if analysis.in_blacklist then
      (acc.1 + 50, acc.2 ++ ["알려진 피싱 사이트 블랙리스트에 등재됨"]) else acc
  let acc := if analysis.is_ip_address then
      (acc.1 + 40, acc.2 ++ ["도메인 대신 IP 주소를 직접 사용"]) else acc
  let acc := if analysis.has_suspicious_pattern then
      (acc.1 + 25, acc.2 ++ ["의심스러운 URL 패턴 감지 (@, 긴 무작위 문자열 등)"]) else acc
  let acc := if analysis.subdomain_depth > 3 then
      (acc.1 + 15, acc.2 ++ ["비정상적으로 깊은 서브도메인 (" ++ toString analysis.subdomain_depth ++ "단계)"]) else acc
  let acc := if !analysis.is_valid_url then
      (acc.1 + 30, acc.2 ++ ["유효하지 않은 URL 형식"]) else acc
  acc

/-- Python `max(results, key=lambda r: risk_priority[r.risk_level])` on the
non-empty list `first :: rest`: iterate, replacing the current best only on a
strictly greater key, so the first maximal element wins ties. -/
def maxByRiskPriority (first : ExternalAPIResult) (rest : List ExternalAPIResult) : ExternalAPIResult :=
  rest.foldl (fun best r =>
    if riskPriority best.risk_level < riskPriority r.risk_level then r else best) first

/-- The per-verdict reason line built by
`RiskCalculator._evaluate_external_apis` for a verdict flagged as a threat:
the source name and tier, plus source-specific detail drawn from the first
present well-known key of the if/elif chain. -/
def externalReason (r : ExternalAPIResult) : String :=
  let reason := r.api_name ++ ": 위협 탐지 (위험도: " ++ r.risk_level.value ++ ")"
  match r.details.threat_types with
  | some tts =>
    if tts.isEmpty then reason else reason ++ " - " ++ String.intercalate ", " tts
  | none =>
    match r.details.malicious_count with
    | some malicious =>
      let suspicious := r.details.suspicious_count.getD 0
      let reason := reason ++ " - " ++ toString malicious ++ "개 스캐너가 악성으로 판단"
      if suspicious > 0 then reason ++ ", " ++ toString suspicious ++ "개 의심" else reason
    | none =>
      match r.details.phish_id with
      | some pid => if pid ≠ "" then reason ++ " - Phish ID: " ++ pid else reason
      | none => reason

/-- `RiskCalculator._evaluate_external_apis`: highest external tier, reason
lines for every threat-flagged verdict, and the name of the source achieving
the maximum tier ("internal" when the list is empty). -/
def evaluateExternalApis (results : List ExternalAPIResult) : RiskLevel × List String × String :=
  match results with
  | [] => (RiskLevel.low, [], "internal")
  | first :: rest =>
    let highest := maxByRiskPriority first rest
    let reasons := ((first :: rest).filter (·.is_threat)).map externalReason
    (highest.risk_level, reasons, highest.api_name)

/-- The internal score-to-tier conversion inlined at the top of
`RiskCalculator._merge_results`. -/
def internalRiskLevel (st : Settings) (internal_score : Int) : RiskLevel :=
  if internal_score ≥ st.risk_threshold_high then RiskLevel.high
  else if internal_score ≥ st.risk_threshold_medium then RiskLevel.medium
  else RiskLevel.low

/-- `RiskCalculator._merge_results`: pick the strictly higher tier; external
reasons first when the external tier wins, internal reasons first otherwise;
the reported score is always the internal score. -/
def mergeResults (st : Settings) (internal_score : Int) (internal_reasons : List String)
    (external_risk : RiskLevel) (external_reasons : List String) (external_source : String) :
    RiskLevel × Int × List String × String :=
  if riskPriority external_risk > riskPriority (internalRiskLevel st internal_score) then
    (external_risk, internal_score, external_reasons ++ internal_reasons, external_source)
  else
    (internalRiskLevel st internal_score, internal_score,
      internal_reasons ++ external_reasons, "internal")

/-- `RiskCalculator._determine_action`. -/
def determineAction (risk_level : RiskLevel) : Action :=
  if risk_level = RiskLevel.high then Action.blocked
  else if risk_level = RiskLevel.medium then Action.warned
  else Action.allowed

/-- `RiskCalculator.calculate`: the fusion operation. -/
def calculate (st : Settings) (internal_analysis : InternalAnalysis)
    (external_results : List ExternalAPIResult) : AnalysisResult :=
  let internal := calculateInternalScore internal_analysis
  let external := evaluateExternalApis external_results
  let merged := mergeResults st internal.1 internal.2 external.1 external.2.1 external.2.2
  let action := determineAction merged.1
  let warning_url : Option String :=
    if action = Action.blocked then some ("/warning?risk=" ++ merged.1.value) else none
  { is_login_attempt := true
    is_phishing := merged.1 == RiskLevel.high || merged.1 == RiskLevel.medium
    risk_level := merged.1
    score := merged.2.1
    reasons := merged.2.2.1
    action := action
    warning_page_url := warning_url
    external_api_results := external_results
    risk_decision_source := merged.2.2.2 }

/-- The request-to-analyze (`app/models/analysis_request.py`,
`AnalysisRequest`).  The optional structured body is modelled by its
serialized text (the detector only ever inspects `str(request.body)`);
`none` covers an absent (or Python-falsy empty) body. -/
structure AnalysisRequest where
  url : String
  method : String
  headers : List (String × String) := []
  body : Option String := none
deriving DecidableEq, Repr

/-- The two credential-field pattern families of
`LoginDetector.CREDENTIAL_PATTERNS`; each regex is an alternation of
literals, i.e. a test that any alternative occurs as a substring. -/
def credentialPatterns : List (List String) :=
  [["password", "passwd", "pwd"],
   ["username", "user", "email", "login", "id"]]

/-- The authentication-endpoint literal patterns
(`LoginDetector.AUTH_ENDPOINTS`). -/
def authEndpoints : List String :=
  ["/login", "/signin", "/sign-in", "/auth", "/authenticate", "/session", "/oauth", "/sso"]

/-- `LoginDetector._is_post_method`. -/
def isPostMethod (r : AnalysisRequest) : Bool :=
  strUpper r.method == "POST"

/-- `LoginDetector._has_credential_fields`: false without a body; otherwise
the lowercased body text must match every pattern family. -/
def hasCredentialFields (r : AnalysisRequest) : Bool :=
  match r.body with
  | none => false
  | some b =>
    let body_str := strLower b
    credentialPatterns.all (fun fam => fam.any (fun w => strContains body_str w))

/-- `LoginDetector._is_auth_endpoint`: the whole lowercased URL is searched
for any auth-endpoint pattern. -/
def isAuthEndpoint (r : AnalysisRequest) : Bool :=
  let url_lower := strLower r.url
  authEndpoints.any (fun p => strContains url_lower p)

/-- `LoginDetector._has_auth_header`. -/
def hasAuthHeader (r : AnalysisRequest) : Bool :=
  (r.headers.map (fun kv => strLower kv.1)).contains "authorization"

/-- `LoginDetector.detect`: login-like iff at least two of the four
indicators hold (`sum(indicators.values()) >= 2`). -/
def detect (r : AnalysisRequest) : Bool :=
  let indicators := [isPostMethod r, hasCredentialFields r, isAuthEndpoint r, hasAuthHeader r]
  2 ≤ indicators.foldl (fun n b => n + (if b then 1 else 0)) 0

/-! Domain analyzer (`app/analyzer/domain_analyzer.py`). -/

/-- ASCII digit test, the alphabet over which the dotted-quad claims range
(the model of the regex class `\d`). -/
def isDigitChar (c : Char) : Bool :=
  '0' ≤ c && c ≤ '9'

/-- Python `int(...)` on a non-empty digit string. -/
def digitsToNat (cs : List Char) : Nat :=
  cs.foldl (fun n c => n * 10 + (c.toNat - '0'.toNat)) 0

/-- Python `s.split('.')` on the character-list level: the (non-empty) list
of groups of `s` delimited by dots. -/
def splitDots : List Char → List (List Char)
  | [] => [[]]
  | c :: cs =>
    if c = '.' then [] :: splitDots cs
    else
      match splitDots cs with
      | g :: gs => (c :: g) :: gs
      | [] => [[c]]

/-- The shape test of the regex `^\d{1,3}\.\d{1,3}\.\d{1,3}\.\d{1,3}$` in
`DomainAnalyzer._is_ip_address`: matching it is equivalent to splitting into
exactly four groups of one to three digits. -/
def dottedQuadShape (hostname : String) : Bool :=
  let groups := splitDots hostname.data
  groups.length == 4 &&
    groups.all (fun g => 1 ≤ g.length && g.length ≤ 3 && g.all isDigitChar)

/-- `DomainAnalyzer._is_ip_address`: a dotted quad with every octet in
0..255, or else the permissive IPv6 heuristic (contains a colon and is not
bracketed).  The octet values model `int(p) for p in hostname.split('.')`
(the lower bound `0 <= p` is automatic for digit strings). -/
def is_ip_address (hostname : String) : Bool :=
  if dottedQuadShape hostname then
    (splitDots hostname.data).all (fun g => digitsToNat g ≤ 255)
  else if strContains hostname ":" && !(strStarts hostname "[") then true
  else false

/-- A maximal-run test for the regex `[a-z0-9]{30,}` with `re.IGNORECASE`:
`k` counts the current run of matching characters. -/
def hasLongRunAux : Nat → List Char → Bool
  | k, [] => 30 ≤ k
  | k, c :: cs =>
    if 30 ≤ k then true
    else if ('a' ≤ c.toLower && c.toLower ≤ 'z') || isDigitChar c then hasLongRunAux (k + 1) cs
    else hasLongRunAux 0 cs

/-- `DomainAnalyzer._has_suspicious_pattern`: the raw URL contains `@`, two
or more consecutive hyphens, or a 30+ run of `[a-z0-9]` characters
(case-insensitively). -/
def hasSuspiciousPattern (url : String) : Bool :=
  strContains url "@" || strContains url "--" || hasLongRunAux 0 url.data

/-- The domain-analysis record (`DomainAnalyzer.analyze` result dictionary;
the `error` key is only set when the Python try-block raises, which has no
counterpart in this pure embedding). -/
structure DomainAnalysis where
  is_valid_url : Bool
  is_ip_address : Bool
  has_suspicious_pattern : Bool
  subdomain_depth : Nat
  domain : String
  tld : String
  hostname : String
deriving DecidableEq, Repr

/-- The all-false/empty default record returned on malformed input. -/
def defaultDomainAnalysis : DomainAnalysis :=
  { is_valid_url := false
    is_ip_address := false
    has_suspicious_pattern := false
    subdomain_depth := 0
    domain := ""
    tld := ""
    hostname := "" }

/-- `DomainAnalyzer.analyze`.  The URL-grammar validator (`validators.url`)
and the hostname extraction of `urllib.parse.urlparse` are external library
collaborators, passed in as explicit function parameters; everything after
them is the analyzer's own logic. -/
def analyze (validators_url : String → Bool) (urlparse_hostname : String → Option String)
    (url : String) : DomainAnalysis :=
  if !(validators_url url) then defaultDomainAnalysis
  else
    let hostname := (urlparse_hostname url).getD ""
    let parts := splitDots hostname.data
    { is_valid_url := true
      hostname := hostname
      is_ip_address := is_ip_address hostname
      subdomain_depth := hostname.data.count '.'
      has_suspicious_pattern := hasSuspiciousPattern url
      domain := if parts.length ≥ 2 then
          String.intercalate "." ((parts.drop (parts.length - 2)).map (⟨·⟩)) else ""
      tld := if parts.length ≥ 2 then (⟨(parts.getLast?).getD []⟩ : String) else "" }

/-! Blacklist store (`app/analyzer/blacklist.py`).  The in-memory set of
lowercase domains is modelled as a duplicate-free list; writing the backing
JSON file (`_save_blacklist`) is an external effect that does not change the
set. -/

/-- `BlacklistManager.is_blacklisted`: empty input is false, otherwise
case-insensitive membership. -/
def is_blacklisted (blacklist : List String) (domain : String) : Bool :=
  if domain = "" then false
  else blacklist.contains (strLower domain)

/-- `BlacklistManager.add`: returns the success flag and the new set. -/
def blacklistAdd (blacklist : List String) (domain : String) : Bool × List String :=
  if domain = "" then (false, blacklist)
  else
    let d := strLower domain
    if blacklist.contains d then (false, blacklist)
    else (true, d :: blacklist)

/-! External sources (`app/analyzer/external_api/`). -/

/-- The outcome of the one HTTP call a source issues through
`ExternalAPIBase._make_request`, classified exactly as that helper does:
success (with the parsed response data and measured latency), timeout, HTTP
status error, or any other exception. -/
inductive HttpOutcome (α : Type) where
  | ok (data : α) (response_time : Int)
  | timeout
  | httpError (status : Nat)
  | otherError (msg : String)
deriving DecidableEq, Repr

/-- The `error` string `_make_request` reports for each failure class. -/
def HttpOutcome.errorMsg {α : Type} : HttpOutcome α → Option String
  | .ok _ _ => none
  | .timeout => some "timeout"
  | .httpError status => some ("HTTP " ++ toString status)
  | .otherError msg => some msg

/-- Failure test on a request outcome (`not result['success']`). -/
def HttpOutcome.isFailure {α : Type} : HttpOutcome α → Bool
  | .ok _ _ => false
  | _ => true

/-- `ExternalAPIBase._create_error_result`: the synthesized no-signal verdict
(`api_name` is the concrete class name). -/
def createErrorResult (api_name error : String) : ExternalAPIResult :=
  { api_name := api_name
    is_threat := false
    risk_level := RiskLevel.low
    details := { error := some error, checked := some false }
    response_time_ms := 0 }

/-- The `last_analysis_stats` counts (plus the two attribute fields read) of
a VirusTotal response, i.e. the data `VirusTotalAPI.check_url` extracts. -/
structure VTStats where
  malicious : Int := 0
  suspicious : Int := 0
  harmless : Int := 0
  undetected : Int := 0
  reputation : Int := 0
  last_analysis_date : Int := 0
deriving DecidableEq, Repr

/-- `VirusTotalAPI.check_url` as a function of its HTTP call's outcome. -/
def virusTotalCheckUrl (api_key : String) (outcome : HttpOutcome VTStats) : ExternalAPIResult :=
  if api_key = "" then createErrorResult "VirusTotalAPI" "API key not configured"
  else
    match outcome with
    | .ok stats rt =>
      let is_threat := stats.malicious > 0 || stats.suspicious > 2
      let risk_level :=
        if stats.malicious > 5 then RiskLevel.high
        else if stats.malicious > 0 || stats.suspicious > 2 then RiskLevel.medium
        else RiskLevel.low
      { api_name := "VirusTotal"
        is_threat := is_threat
        risk_level := risk_level
        details := { malicious_count := some stats.malicious
                     suspicious_count := some stats.suspicious
                     harmless_count := some stats.harmless
                     undetected_count := some stats.undetected
                     total_scanners := some (stats.malicious + stats.suspicious + stats.harmless + stats.undetected)
                     reputation := some stats.reputation
                     last_analysis_date := some stats.last_analysis_date }
        response_time_ms := rt }
    | failure => createErrorResult "VirusTotalAPI" (failure.errorMsg.getD "Unknown error")

/-- `GoogleSafeBrowsingAPI.check_url` as a function of its HTTP call's
outcome; the response data is the list of matched threat types. -/
def googleSafeBrowsingCheckUrl (api_key : String) (outcome : HttpOutcome (List String)) :
    ExternalAPIResult :=
  if api_key = "" then createErrorResult "GoogleSafeBrowsingAPI" "API key not configured"
  else
    match outcome with
    | .ok threat_types rt =>
      let is_threat := threat_types.length > 0
      { api_name := "Google Safe Browsing"
        is_threat := is_threat
        risk_level := if is_threat then RiskLevel.high else RiskLevel.low
        details := { threat_types := some threat_types
                     threat_count := some threat_types.length }
        response_time_ms := rt }
    | failure => createErrorResult "GoogleSafeBrowsingAPI" (failure.errorMsg.getD "Unknown error")

/-- The `results` object of a PhishTank response, i.e. the fields
`PhishTankAPI.check_url` reads (with the same defaults as its `.get`s). -/
structure PhishTankResults where
  in_database : Bool := false
  valid : Bool := true
  phish_id : String := ""
  phish_detail_page : String := ""
  verified : Bool := false
  verified_at : String := ""
deriving DecidableEq, Repr

/-- `PhishTankAPI.check_url` as a function of its HTTP call's outcome. -/
def phishTankCheckUrl (outcome : HttpOutcome PhishTankResults) : ExternalAPIResult :=
  match outcome with
  | .ok results rt =>
    let is_threat := results.in_database
    { api_name := "PhishTank"
      is_threat := is_threat
      risk_level := if is_threat then RiskLevel.high else RiskLevel.low
      details := { in_database := some is_threat
                   valid := some results.valid
                   phish_id := some results.phish_id
                   phish_detail_url := some results.phish_detail_page
                   verified := some results.verified
                   verified_at := some results.verified_at }
      response_time_ms := rt }
  | failure => createErrorResult "PhishTankAPI" (failure.errorMsg.getD "Unknown error")

/-! Source orchestrator (`app/analyzer/external_api/__init__.py`). -/

/-- The per-source outcome of `asyncio.gather(*tasks, return_exceptions=True)`:
either the verdict a source's `check_url` returned, or the exception it
raised (carried as its message). -/
abbrev GatherSlot := Except String ExternalAPIResult

/-- The collection loop of `ExternalAPIManager.check_url_all`: raised
exceptions are dropped, returned verdicts are kept in source order.  The
function is total: the orchestrator itself never raises. -/
def collectValidResults : List GatherSlot → List ExternalAPIResult
  | [] => []
  | .ok v :: rest => v :: collectValidResults rest
  | .error _ :: rest => collectValidResults rest

/-- `ExternalAPIManager.get_highest_risk`: LOW/"none" on the empty list,
otherwise the tier and name of the first verdict of maximal priority. -/
def getHighestRisk (results : List ExternalAPIResult) : RiskLevel × String :=
  match results with
  | [] => (RiskLevel.low, "none")
  | first :: rest =>
    let highest := maxByRiskPriority first rest
    (highest.risk_level, highest.api_name)

/-! The inbound analyze operation (`app/main.py`, `analyze_request`). -/

/-- The responses `analyze_request` can produce on its normal paths: the
minimal not-a-login short-circuit dictionary, the rendered block page for a
BLOCKED verdict, or the verdict itself. -/
inductive AnalyzeResponse where
  | notLoginAttempt
  | blockedPage (result : AnalysisResult)
  | verdict (result : AnalysisResult)
deriving DecidableEq, Repr

/-- `analyze_request`, parametrized by the analyzer outcome for the
request's URL (the internal analysis record and the external verdicts, which
the Python code obtains from `phishing_analyzer.analyze`). -/
def analyzeRequest (st : Settings) (r : AnalysisRequest)
    (internal_analysis : InternalAnalysis) (external_results : List ExternalAPIResult) :
    AnalyzeResponse :=
  if !(detect r) then AnalyzeResponse.notLoginAttempt
  else
    let result := calculate st internal_analysis external_results
    if result.action = Action.blocked then AnalyzeResponse.blockedPage result
    else AnalyzeResponse.verdict result

/-! Helper lemmas shared by the claim theorems. -/

/-- Every tier has priority at least 1. -/
lemma one_le_riskPriority (t : RiskLevel) : 1 ≤ riskPriority t := by
  cases t <;> simp [riskPriority]

/-- The Python `max` over `first :: rest` keyed by tier priority: every
element is bounded by the winner, and the winner is the first element of the
list achieving its priority (all elements before it are strictly lower). -/
lemma maxByRiskPriority_spec (first : ExternalAPIResult) (rest : List ExternalAPIResult) :
    (∀ x ∈ first :: rest,
        riskPriority x.risk_level ≤ riskPriority (maxByRiskPriority first rest).risk_level)
    ∧ ∃ pre post, first :: rest = pre ++ maxByRiskPriority first rest :: post
        ∧ ∀ x ∈ pre,
            riskPriority x.risk_level < riskPriority (maxByRiskPriority first rest).risk_level := by
  induction rest generalizing first with
  | nil =>
    refine ⟨?_, [], [], rfl, by simp⟩
    intro x hx
    simp only [List.mem_singleton] at hx
    subst hx
    exact le_refl _
  | cons r t ih =>
    have hstep : maxByRiskPriority first (r :: t) =
        maxByRiskPriority
          (if riskPriority first.risk_level < riskPriority r.risk_level then r else first) t := rfl
    by_cases hc : riskPriority first.risk_level < riskPriority r.risk_level
    · rw [hstep, if_pos hc]
      obtain ⟨hle, pre, post, hdec, hpre⟩ := ih r
      have hr : riskPriority r.risk_level ≤ riskPriority (maxByRiskPriority r t).risk_level :=
        hle r (List.mem_cons_self _ _)
      refine ⟨?_, first :: pre, post, ?_, ?_⟩
      · intro x hx
        rcases List.mem_cons.mp hx with hx | hx
        · subst hx; exact le_of_lt (lt_of_lt_of_le hc hr)
        · exact hle x hx
      · rw [List.cons_append, ← hdec]
      · intro x hx
        rcases List.mem_cons.mp hx with hx | hx
        · subst hx; exact lt_of_lt_of_le hc hr
        · exact hpre x hx
    · rw [hstep, if_neg hc]
      obtain ⟨hle, pre, post, hdec, hpre⟩ := ih first
      have hrle : riskPriority r.risk_level ≤ riskPriority first.risk_level := le_of_not_lt hc
      have hfle : riskPriority first.risk_level ≤
          riskPriority (maxByRiskPriority first t).risk_level :=
        hle first (List.mem_cons_self _ _)
      cases pre with
      | nil =>
        simp only [List.nil_append] at hdec
        injection hdec with hm hpost
        refine ⟨?_, [], r :: post, ?_, by simp⟩
        · intro x hx
          rcases List.mem_cons.mp hx with hx | hx
          · subst hx; rw [← hm]
          · rcases List.mem_cons.mp hx with hx | hx
            · subst hx; rw [← hm]; exact hrle
            · exact hle x (List.mem_cons_of_mem _ hx)
        · rw [show maxByRiskPriority first t = first from hm.symm, hpost]
          rfl
      | cons p pre' =>
        simp only [List.cons_append] at hdec
        injection hdec with hp ht
        have hfirst_lt : riskPriority first.risk_level <
            riskPriority (maxByRiskPriority first t).risk_level := by
          have := hpre p (List.mem_cons_self _ _)
          rwa [← hp] at this
        refine ⟨?_, first :: r :: pre', post, ?_, ?_⟩
        · intro x hx
          rcases List.mem_cons.mp hx with hx | hx
          · subst hx; exact hfle
          · rcases List.mem_cons.mp hx with hx | hx
            · subst hx; exact le_trans hrle hfle
            · exact hle x (List.mem_cons_of_mem _ hx)
        · simp only [List.cons_append, List.cons.injEq, true_and]
          exact ht
        · intro x hx
          rcases List.mem_cons.mp hx with hx | hx
          · subst hx; exact hfirst_lt
          · rcases List.mem_cons.mp hx with hx | hx
            · subst hx; exact lt_of_le_of_lt hrle hfirst_lt
            · exact hpre x (hp ▸ List.mem_cons_of_mem _ hx)

/-- The winner of the keyed max is an element of the list. -/
lemma maxByRiskPriority_mem (first : ExternalAPIResult) (rest : List ExternalAPIResult) :
    maxByRiskPriority first rest ∈ first :: rest := by
  obtain ⟨-, pre, post, hdec, -⟩ := maxByRiskPriority_spec first rest
  rw [hdec]
  exact List.mem_append_right _ (List.mem_cons_self _ _)

/-! Claim C2: additive internal scoring and threshold conversion. -/

/-- C2: the internal score is the sum of exactly the five independent
contributions (+50 blacklist, +40 IP literal, +25 suspicious pattern, +15
deep subdomain, +30 invalid URL), the reason strings are appended in this
fixed order, and the internal tier is HIGH at or above the high threshold,
MEDIUM at or above the medium threshold, and LOW otherwise. -/
theorem internal_score_additive_and_thresholds (st : Settings) (a : InternalAnalysis) :
    (calculateInternalScore a).1 =
        (if a.in_blacklist then 50 else 0) + (if a.is_ip_address then 40 else 0)
          + (if a.has_suspicious_pattern then 25 else 0)
          + (if a.subdomain_depth > 3 then 15 else 0)
          + (if a.is_valid_url then 0 else 30)
    ∧ (calculateInternalScore a).2 =
        (if a.in_blacklist then ["알려진 피싱 사이트 블랙리스트에 등재됨"] else [])
          ++ (if a.is_ip_address then ["도메인 대신 IP 주소를 직접 사용"] else [])
          ++ (if a.has_suspicious_pattern then ["의심스러운 URL 패턴 감지 (@, 긴 무작위 문자열 등)"] else [])
          ++ (if a.subdomain_depth > 3 then
                ["비정상적으로 깊은 서브도메인 (" ++ toString a.subdomain_depth ++ "단계)"] else [])
          ++ (if a.is_valid_url then [] else ["유효하지 않은 URL 형식"])
    ∧ (st.risk_threshold_high ≤ (calculateInternalScore a).1 →
        internalRiskLevel st (calculateInternalScore a).1 = RiskLevel.high)
    ∧ ((calculateInternalScore a).1 < st.risk_threshold_high →
        st.risk_threshold_medium ≤ (calculateInternalScore a).1 →
        internalRiskLevel st (calculateInternalScore a).1 = RiskLevel.medium)
    ∧ ((calculateInternalScore a).1 < st.risk_threshold_high →
        (calculateInternalScore a).1 < st.risk_threshold_medium →
        internalRiskLevel st (calculateInternalScore a).1 = RiskLevel.low) := by
  refine ⟨?_, ?_, ?_, ?_, ?_⟩
  · obtain ⟨u, bl, ip, sus, dep, dom, tld, host, valid⟩ := a
    by_cases hd : dep > 3 <;> cases bl <;> cases ip <;> cases sus <;> cases valid <;>
      simp [calculateInternalScore, hd]
  · obtain ⟨u, bl, ip, sus, dep, dom, tld, host, valid⟩ := a
    by_cases hd : dep > 3 <;> cases bl <;> cases ip <;> cases sus <;> cases valid <;>
      simp [calculateInternalScore, hd]
  · intro h
    simp [internalRiskLevel, h]
  · intro h1 h2
    rw [internalRiskLevel, if_neg (not_le.mpr h1), if_pos h2]
  · intro h1 h2
    rw [internalRiskLevel, if_neg (not_le.mpr h1), if_neg (not_le.mpr h2)]

/-- Sample internal record for the C2 witness: blacklist hit plus IP
literal, score 90. -/
def c2Sample : InternalAnalysis :=
  { in_blacklist := true
    is_ip_address := true
    has_suspicious_pattern := false
    subdomain_depth := 0
    is_valid_url := true }

/-- Witness for C2 at a concrete record and the default thresholds. -/
theorem internal_score_additive_and_thresholds_witness :
    (calculateInternalScore c2Sample).1 = 90
    ∧ internalRiskLevel defaultSettings (calculateInternalScore c2Sample).1 = RiskLevel.high := by
  have h := internal_score_additive_and_thresholds defaultSettings c2Sample
  exact ⟨by rw [h.1]; rfl, h.2.2.1 (by decide)⟩

/-! Claim C6: action, is_phishing, and the warning reference are a pure
function of the final tier. -/

/-- C6: in every fused verdict, final tier HIGH yields BLOCKED, MEDIUM
yields WARNED, LOW yields ALLOWED; is_phishing holds iff the final tier is
MEDIUM or HIGH; and the warning-resource reference is non-null iff the
action is BLOCKED. -/
theorem action_pure_function_of_tier (st : Settings) (a : InternalAnalysis)
    (rs : List ExternalAPIResult) :
    ((calculate st a rs).risk_level = RiskLevel.high → (calculate st a rs).action = Action.blocked)
    ∧ ((calculate st a rs).risk_level = RiskLevel.medium → (calculate st a rs).action = Action.warned)
    ∧ ((calculate st a rs).risk_level = RiskLevel.low → (calculate st a rs).action = Action.allowed)
    ∧ ((calculate st a rs).is_phishing = true ↔
        ((calculate st a rs).risk_level = RiskLevel.medium
          ∨ (calculate st a rs).risk_level = RiskLevel.high))
    ∧ ((calculate st a rs).warning_page_url ≠ none ↔ (calculate st a rs).action = Action.blocked) := by
  simp only [calculate]
  cases hm : (mergeResults st (calculateInternalScore a).1 (calculateInternalScore a).2
      (evaluateExternalApis rs).1 (evaluateExternalApis rs).2.1 (evaluateExternalApis rs).2.2).1 <;>
    simp [determineAction]

/-- Sample internal record for the C6 witness: score 90, tier HIGH. -/
def c6Sample : InternalAnalysis :=
  { in_blacklist := true
    is_ip_address := true
    has_suspicious_pattern := false
    subdomain_depth := 0
    is_valid_url := true }

/-- Witness for C6 at a concrete blocked verdict. -/
theorem action_pure_function_of_tier_witness :
    (calculate defaultSettings c6Sample []).action = Action.blocked
    ∧ (calculate defaultSettings c6Sample []).is_phishing = true
    ∧ (calculate defaultSettings c6Sample []).warning_page_url ≠ none := by
  have h := action_pure_function_of_tier defaultSettings c6Sample []
  refine ⟨h.1 (by decide), ?_, ?_⟩
  · exact h.2.2.2.1.mpr (Or.inr (by decide))
  · exact h.2.2.2.2.mpr (h.1 (by decide))

/-! Claim C7: the domain analyzer returns the default record on invalid
input and never raises (it is a total function of its inputs). -/

/-- C7: for every URL-grammar validator, hostname extractor and input
string, `analyze` is total, and whenever the input fails URL validation it
returns exactly the all-false/empty default record. -/
theorem analyze_invalid_returns_default (validators_url : String → Bool)
    (urlparse_hostname : String → Option String) (url : String)
    (h : validators_url url = false) :
    analyze validators_url urlparse_hostname url = defaultDomainAnalysis := by
  simp [analyze, h]

/-- Witness for C7 at a concrete rejected input. -/
theorem analyze_invalid_returns_default_witness :
    (fun _ : String => false) "not-a-valid-url" = false
    ∧ analyze (fun _ => false) (fun _ => none) "not-a-valid-url" = defaultDomainAnalysis :=
  ⟨rfl, analyze_invalid_returns_default (fun _ => false) (fun _ => none) "not-a-valid-url" rfl⟩

/-! Claim C10: the fusion engine unconditionally marks its output a login
attempt; the not-a-login short-circuit exists only in the caller's gate. -/

/-- C10: every fused verdict has is_login_attempt = true, and the analyze
operation returns the minimal not-a-login short-circuit exactly when the
detector gate fails. -/
theorem fusion_always_login_attempt (st : Settings) (a : InternalAnalysis)
    (rs : List ExternalAPIResult) :
    (calculate st a rs).is_login_attempt = true
    ∧ ∀ r : AnalysisRequest,
        (analyzeRequest st r a rs = AnalyzeResponse.notLoginAttempt ↔ detect r = false) := by
  refine ⟨rfl, ?_⟩
  intro r
  cases hd : detect r
  · simp [analyzeRequest, hd]
  · simp only [analyzeRequest, hd, Bool.not_true, Bool.false_eq_true, if_false,
      Bool.true_eq_false, iff_false]
    split <;> simp

/-- Sample internal record for the C10 witness. -/
def c10Sample : InternalAnalysis :=
  { in_blacklist := false
    is_ip_address := false
    has_suspicious_pattern := false
    subdomain_depth := 1
    is_valid_url := true }

/-- Witness for C10: a concrete fused verdict is marked a login attempt, and
a GET request to a plain URL takes the caller's short-circuit. -/
theorem fusion_always_login_attempt_witness :
    (calculate defaultSettings c10Sample []).is_login_attempt = true
    ∧ analyzeRequest defaultSettings { url := "https://example.com", method := "GET" }
        c10Sample [] = AnalyzeResponse.notLoginAttempt :=
  ⟨(fusion_always_login_attempt defaultSettings c10Sample []).1,
   ((fusion_always_login_attempt defaultSettings c10Sample []).2
      { url := "https://example.com", method := "GET" }).mpr (by decide)⟩

/-! Claim C1: fusion compares the internal and the highest external tier. -/

/-- The property C1 asserts of the winning source name: some verdict in the
list carries that name and the maximum tier, every verdict before it is
strictly lower (first-seen tie-breaking), and no verdict exceeds it. -/
def achievesMaxFirst (results : List ExternalAPIResult) (name : String) (tier : RiskLevel) : Prop :=
  ∃ pre r post, results = pre ++ r :: post ∧ r.api_name = name ∧ r.risk_level = tier
    ∧ (∀ x ∈ pre, riskPriority x.risk_level < riskPriority tier)
    ∧ ∀ x ∈ results, riskPriority x.risk_level ≤ riskPriority tier

/-- C1: when the highest external tier strictly exceeds the internal tier,
the verdict carries the external tier, external reasons before internal
ones, and the first-seen maximal source's name; otherwise (ties and the
empty verdict list included) the internal tier, internal reasons first, and
"internal"; the reported score is the internal score in both cases. -/
theorem fusion_compares_tiers (st : Settings) (a : InternalAnalysis)
    (rs : List ExternalAPIResult) :
    (calculate st a rs).score = (calculateInternalScore a).1
    ∧ (riskPriority (internalRiskLevel st (calculateInternalScore a).1) <
         riskPriority (evaluateExternalApis rs).1 →
        (calculate st a rs).risk_level = (evaluateExternalApis rs).1
        ∧ (calculate st a rs).reasons =
            (evaluateExternalApis rs).2.1 ++ (calculateInternalScore a).2
        ∧ achievesMaxFirst rs (calculate st a rs).risk_decision_source
            (evaluateExternalApis rs).1)
    ∧ (riskPriority (evaluateExternalApis rs).1 ≤
         riskPriority (internalRiskLevel st (calculateInternalScore a).1) →
        (calculate st a rs).risk_level = internalRiskLevel st (calculateInternalScore a).1
        ∧ (calculate st a rs).reasons =
            (calculateInternalScore a).2 ++ (evaluateExternalApis rs).2.1
        ∧ (calculate st a rs).risk_decision_source = "internal") := by
  by_cases hc : riskPriority (internalRiskLevel st (calculateInternalScore a).1) <
      riskPriority (evaluateExternalApis rs).1
  · have hm : mergeResults st (calculateInternalScore a).1 (calculateInternalScore a).2
        (evaluateExternalApis rs).1 (evaluateExternalApis rs).2.1 (evaluateExternalApis rs).2.2 =
        ((evaluateExternalApis rs).1, (calculateInternalScore a).1,
          (evaluateExternalApis rs).2.1 ++ (calculateInternalScore a).2,
          (evaluateExternalApis rs).2.2) := by
      unfold mergeResults
      rw [if_pos hc]
    refine ⟨?_, fun _ => ⟨?_, ?_, ?_⟩, fun h => absurd hc (not_lt.mpr h)⟩
    · simp only [calculate, hm]
    · simp only [calculate, hm]
    · simp only [calculate, hm]
    · have hsrc : (calculate st a rs).risk_decision_source = (evaluateExternalApis rs).2.2 := by
        simp only [calculate, hm]
      rw [hsrc]
      cases rs with
      | nil =>
        exact absurd hc (not_lt.mpr (one_le_riskPriority _))
      | cons first rest =>
        have heval : evaluateExternalApis (first :: rest) =
            ((maxByRiskPriority first rest).risk_level,
              ((first :: rest).filter (·.is_threat)).map externalReason,
              (maxByRiskPriority first rest).api_name) := rfl
        rw [heval]
        obtain ⟨hle, pre, post, hdec, hpre⟩ := maxByRiskPriority_spec first rest
        exact ⟨pre, maxByRiskPriority first rest, post, hdec, rfl, rfl, hpre, hle⟩
  · have hm : mergeResults st (calculateInternalScore a).1 (calculateInternalScore a).2
        (evaluateExternalApis rs).1 (evaluateExternalApis rs).2.1 (evaluateExternalApis rs).2.2 =
        (internalRiskLevel st (calculateInternalScore a).1, (calculateInternalScore a).1,
          (calculateInternalScore a).2 ++ (evaluateExternalApis rs).2.1, "internal") := by
      unfold mergeResults
      rw [if_neg hc]
    refine ⟨?_, fun h => absurd h hc, fun _ => ⟨?_, ?_, ?_⟩⟩ <;>
      simp only [calculate, hm]

/-- Sample verdicts for the C1 witness. -/
def c1HighVerdict : ExternalAPIResult :=
  { api_name := "Google Safe Browsing"
    is_threat := true
    risk_level := RiskLevel.high
    details := { threat_types := some ["SOCIAL_ENGINEERING"] }
    response_time_ms := 150 }

/-- Sample low-risk internal record for the C1 witness. -/
def c1LowAnalysis : InternalAnalysis :=
  { in_blacklist := false
    is_ip_address := false
    has_suspicious_pattern := false
    subdomain_depth := 1
    is_valid_url := true }

/-- Witness for C1: a LOW internal record against one HIGH external verdict
takes the external branch, and against no verdicts takes the internal one. -/
theorem fusion_compares_tiers_witness :
    ((calculate defaultSettings c1LowAnalysis [c1HighVerdict]).risk_level =
        (evaluateExternalApis [c1HighVerdict]).1
      ∧ (calculate defaultSettings c1LowAnalysis [c1HighVerdict]).reasons =
          (evaluateExternalApis [c1HighVerdict]).2.1 ++ (calculateInternalScore c1LowAnalysis).2
      ∧ achievesMaxFirst [c1HighVerdict]
          (calculate defaultSettings c1LowAnalysis [c1HighVerdict]).risk_decision_source
          (evaluateExternalApis [c1HighVerdict]).1)
    ∧ ((calculate defaultSettings c1LowAnalysis []).risk_level =
        internalRiskLevel defaultSettings (calculateInternalScore c1LowAnalysis).1
      ∧ (calculate defaultSettings c1LowAnalysis []).reasons =
          (calculateInternalScore c1LowAnalysis).2 ++ (evaluateExternalApis []).2.1
      ∧ (calculate defaultSettings c1LowAnalysis []).risk_decision_source = "internal") :=
  ⟨(fusion_compares_tiers defaultSettings c1LowAnalysis [c1HighVerdict]).2.1 (by decide),
   (fusion_compares_tiers defaultSettings c1LowAnalysis []).2.2 (by decide)⟩

/-! Claim C5: a source failure degrades to a synthesized LOW verdict and
never raises the highest external tier. -/

/-- C5: on any failure of the HTTP call (timeout, HTTP status error, other
exception) every source returns the synthesized error verdict — no threat,
tier LOW, an error detail — instead of raising; and a LOW verdict in a list
never increases the highest tier computed over that list. -/
theorem source_failure_degrades_to_low :
    (∀ name msg : String, (createErrorResult name msg).is_threat = false
      ∧ (createErrorResult name msg).risk_level = RiskLevel.low
      ∧ (createErrorResult name msg).details.error = some msg)
    ∧ (∀ (api_key : String) (f : HttpOutcome VTStats), f.isFailure = true → api_key ≠ "" →
        virusTotalCheckUrl api_key f =
          createErrorResult "VirusTotalAPI" (f.errorMsg.getD "Unknown error"))
    ∧ (∀ (api_key : String) (f : HttpOutcome (List String)), f.isFailure = true → api_key ≠ "" →
        googleSafeBrowsingCheckUrl api_key f =
          createErrorResult "GoogleSafeBrowsingAPI" (f.errorMsg.getD "Unknown error"))
    ∧ (∀ f : HttpOutcome PhishTankResults, f.isFailure = true →
        phishTankCheckUrl f = createErrorResult "PhishTankAPI" (f.errorMsg.getD "Unknown error"))
    ∧ (∀ e : ExternalAPIResult, e.risk_level = RiskLevel.low →
        ∀ l1 l2 : List ExternalAPIResult,
          riskPriority (getHighestRisk (l1 ++ e :: l2)).1 ≤
            riskPriority (getHighestRisk (l1 ++ l2)).1) := by
  refine ⟨fun name msg => ⟨rfl, rfl, rfl⟩, ?_, ?_, ?_, ?_⟩
  · intro api_key f hf hk
    cases f with
    | ok d rt => simp [HttpOutcome.isFailure] at hf
    | timeout => simp [virusTotalCheckUrl, hk]
    | httpError s => simp [virusTotalCheckUrl, hk]
    | otherError m => simp [virusTotalCheckUrl, hk]
  · intro api_key f hf hk
    cases f with
    | ok d rt => simp [HttpOutcome.isFailure] at hf
    | timeout => simp [googleSafeBrowsingCheckUrl, hk]
    | httpError s => simp [googleSafeBrowsingCheckUrl, hk]
    | otherError m => simp [googleSafeBrowsingCheckUrl, hk]
  · intro f hf
    cases f with
    | ok d rt => simp [HttpOutcome.isFailure] at hf
    | timeout => rfl
    | httpError s => rfl
    | otherError m => rfl
  · intro e he l1 l2
    have hlow : riskPriority e.risk_level = 1 := by rw [he]; rfl
    cases l1 with
    | nil =>
      cases l2 with
      | nil =>
        simp only [List.nil_append, getHighestRisk, maxByRiskPriority, List.foldl_nil]
        rw [hlow]
        exact one_le_riskPriority _
      | cons y t =>
        have hmem := maxByRiskPriority_mem e (y :: t)
        have hspec := (maxByRiskPriority_spec y t).1
        rcases List.mem_cons.mp hmem with hme | hme
        · simp only [List.nil_append, getHighestRisk]
          rw [hme, hlow]
          exact one_le_riskPriority _
        · simp only [List.nil_append, getHighestRisk]
          exact hspec _ hme
    | cons x t1 =>
      have hmem := maxByRiskPriority_mem x (t1 ++ e :: l2)
      have hspec := (maxByRiskPriority_spec x (t1 ++ l2)).1
      simp only [List.cons_append, getHighestRisk]
      rcases List.mem_cons.mp hmem with hme | hme
      · rw [hme]
        exact hspec _ (List.mem_cons_self _ _)
      · rcases List.mem_append.mp hme with hme | hme
        · exact hspec _ (List.mem_cons_of_mem _ (List.mem_append_left _ hme))
        · rcases List.mem_cons.mp hme with hme | hme
          · rw [hme, hlow]
            exact one_le_riskPriority _
          · exact hspec _ (List.mem_cons_of_mem _ (List.mem_append_right _ hme))

/-- Witness for C5: a concrete timeout of the VirusTotal source, and the
resulting error verdict not raising the highest tier over a list holding a
HIGH verdict. -/
theorem source_failure_degrades_to_low_witness :
    virusTotalCheckUrl "key" (HttpOutcome.timeout : HttpOutcome VTStats) =
      createErrorResult "VirusTotalAPI" "timeout"
    ∧ riskPriority (getHighestRisk ([c1HighVerdict] ++
          createErrorResult "VirusTotalAPI" "timeout" :: [])).1 ≤
        riskPriority (getHighestRisk ([c1HighVerdict] ++ [])).1 :=
  ⟨source_failure_degrades_to_low.2.1 "key" HttpOutcome.timeout rfl (by decide),
   source_failure_degrades_to_low.2.2.2.2 (createErrorResult "VirusTotalAPI" "timeout") rfl
     [c1HighVerdict] []⟩

/-! Claim C4: what `check_url_all` actually excludes.  A source whose
coroutine raises is dropped by the collection loop; but a source whose HTTP
call times out does not raise — its `check_url` returns the synthesized LOW
error verdict (claim C5), which the loop keeps. -/

/-- The successful source of the C4 scenario. -/
def c4SuccessVerdict : ExternalAPIResult :=
  googleSafeBrowsingCheckUrl "gsb-key" (HttpOutcome.ok ["SOCIAL_ENGINEERING"] 120)

/-- The timed-out source of the C4 scenario: its HTTP call times out, so its
`check_url` returns the synthesized error verdict instead of raising. -/
def c4TimedOutVerdict : ExternalAPIResult :=
  virusTotalCheckUrl "vt-key" HttpOutcome.timeout

/-- The gather outcome for three enabled sources: one succeeds, one raises
an exception, and one times out inside its HTTP call. -/
def c4Gathered : List GatherSlot :=
  [Except.ok c4SuccessVerdict,
   Except.error "RuntimeError: boom",
   Except.ok c4TimedOutVerdict]

/-- C4 counterexample: with three enabled sources where one throws and one
times out, the result list is the successful verdict followed by the
timed-out source's synthesized LOW verdict — not "exactly the one successful
verdict" as the claim states. -/
theorem check_all_keeps_timed_out_source :
    collectValidResults c4Gathered = [c4SuccessVerdict, c4TimedOutVerdict]
    ∧ c4TimedOutVerdict = createErrorResult "VirusTotalAPI" "timeout"
    ∧ collectValidResults c4Gathered ≠ [c4SuccessVerdict] := by
  refine ⟨rfl, rfl, ?_⟩
  decide

/-- C4 amended: `check_url_all` is total (it never raises) and keeps exactly
the verdicts of the sources whose coroutines returned, in source order —
a raised exception is excluded, and an all-raised (or empty) gather yields
the empty list as a valid outcome; a timed-out HTTP call is not excluded,
because it surfaces as a returned LOW error verdict. -/
theorem check_all_excludes_only_raised (gathered : List GatherSlot) :
    (∀ v : ExternalAPIResult, v ∈ collectValidResults gathered ↔ Except.ok v ∈ gathered)
    ∧ ((∀ slot ∈ gathered, ∃ msg, slot = Except.error msg) →
        collectValidResults gathered = [])
    ∧ collectValidResults ([] : List GatherSlot) = [] := by
  refine ⟨?_, ?_, rfl⟩
  · intro v
    induction gathered with
    | nil => simp [collectValidResults]
    | cons slot rest ih =>
      cases slot with
      | ok w => simp [collectValidResults, ih]
      | error msg => simp [collectValidResults, ih]
  · intro h
    induction gathered with
    | nil => rfl
    | cons slot rest ih =>
      cases slot with
      | ok w =>
        obtain ⟨msg, hmsg⟩ := h (Except.ok w) (List.mem_cons_self _ _)
        cases hmsg
      | error msg =>
        exact ih (fun s hs => h s (List.mem_cons_of_mem _ hs))

/-- Witness for the amended C4 at a concrete all-raised gather outcome. -/
theorem check_all_excludes_only_raised_witness :
    collectValidResults [Except.error "boom", Except.error "timeout"] = [] :=
  (check_all_excludes_only_raised [Except.error "boom", Except.error "timeout"]).2.1
    (by intro slot hs
        rcases List.mem_cons.mp hs with h | h
        · exact ⟨"boom", h⟩
        · rcases List.mem_cons.mp h with h | h
          · exact ⟨"timeout", h⟩
          · cases h)

/-! Claim C8: the IP-literal predicate. -/

/-- Substring search for a single character is list membership. -/
lemma listHasSub_singleton (c : Char) (cs : List Char) :
    listHasSub [c] cs = true ↔ c ∈ cs := by
  induction cs with
  | nil => simp [listHasSub]
  | cons d ds ih => simp [listHasSub, listHasLead, ih]

/-- Splitting on dots never yields the empty list of groups. -/
lemma splitDots_ne_nil (cs : List Char) : splitDots cs ≠ [] := by
  cases cs with
  | nil => simp [splitDots]
  | cons c cs =>
    by_cases hc : c = '.'
    · simp [splitDots, hc]
    · simp only [splitDots, if_neg hc]
      cases hsp : splitDots cs <;> simp

/-- Every non-dot character of the input appears in some dot-group. -/
lemma splitDots_cover {c : Char} {cs : List Char} (hc : c ∈ cs) (hne : c ≠ '.') :
    ∃ g ∈ splitDots cs, c ∈ g := by
  induction cs with
  | nil => cases hc
  | cons d ds ih =>
    rcases List.mem_cons.mp hc with rfl | hmem
    · cases hsp : splitDots ds with
      | nil => exact ⟨[c], by simp [splitDots, hne, hsp], by simp⟩
      | cons g gs =>
        refine ⟨c :: g, ?_, by simp⟩
        simp [splitDots, hne, hsp]
    · by_cases hd : d = '.'
      · obtain ⟨g, hg, hcg⟩ := ih hmem
        refine ⟨g, ?_, hcg⟩
        simp only [splitDots, if_pos hd]
        exact List.mem_cons_of_mem _ hg
      · obtain ⟨g, hg, hcg⟩ := ih hmem
        cases hsp : splitDots ds with
        | nil => rw [hsp] at hg; cases hg
        | cons g0 gs =>
          rw [hsp] at hg
          rcases List.mem_cons.mp hg with rfl | hgs
          · refine ⟨d :: g, ?_, List.mem_cons_of_mem _ hcg⟩
            simp [splitDots, hd, hsp]
          · refine ⟨g, ?_, hcg⟩
            simp only [splitDots, if_neg hd, hsp]
            exact List.mem_cons_of_mem _ hgs

/-- A hostname containing a colon cannot match the dotted-quad regex. -/
lemma colon_not_dottedQuad (hostname : String) (hc : strContains hostname ":" = true) :
    dottedQuadShape hostname = false := by
  have hmem : ':' ∈ hostname.data := (listHasSub_singleton ':' hostname.data).mp hc
  obtain ⟨g, hg, hcg⟩ := splitDots_cover hmem (by decide)
  cases hq : dottedQuadShape hostname with
  | false => rfl
  | true =>
    exfalso
    unfold dottedQuadShape at hq
    have h2 := (Bool.and_eq_true_iff.mp hq).2
    have h3 := List.all_eq_true.mp h2 g hg
    have h4 := (Bool.and_eq_true_iff.mp h3).2
    have h6 := List.all_eq_true.mp h4 ':' hcg
    exact absurd h6 (by decide)

/-- C8: on a dotted-quad-shaped hostname, the IP-literal predicate holds iff
every octet is at most 255; and every hostname containing a colon and not
starting with a bracket is classified as an IP literal. -/
theorem ip_literal_dotted_quad_and_colon (hostname : String) :
    (dottedQuadShape hostname = true →
      (is_ip_address hostname = true ↔
        ∀ g ∈ splitDots hostname.data, digitsToNat g ≤ 255))
    ∧ (strContains hostname ":" = true → strStarts hostname "[" = false →
        is_ip_address hostname = true) := by
  constructor
  · intro hsh
    unfold is_ip_address
    rw [if_pos hsh]
    simp [List.all_eq_true]
  · intro hc hsw
    have hq := colon_not_dottedQuad hostname hc
    unfold is_ip_address
    rw [if_neg (by rw [hq]; exact Bool.false_ne_true), if_pos (by rw [hc, hsw]; rfl)]

/-- Witness for C8: the octet 300 defeats the dotted quad `300.1.1.1`, and
the unbracketed colon string `2001:db8::1` is classified as an IP literal. -/
theorem ip_literal_dotted_quad_and_colon_witness :
    (is_ip_address "300.1.1.1" = true ↔
      ∀ g ∈ splitDots "300.1.1.1".data, digitsToNat g ≤ 255)
    ∧ is_ip_address "2001:db8::1" = true :=
  ⟨(ip_literal_dotted_quad_and_colon "300.1.1.1").1 (by decide),
   (ip_literal_dotted_quad_and_colon "2001:db8::1").2 (by decide) (by decide)⟩

/-! Claim C9: case-insensitive, duplicate-rejecting blacklist insertion. -/

/-- The character-list image of `strLower`. -/
lemma strLower_data (s : String) : (strLower s).data = s.data.map Char.toLower := rfl

/-- Lowercasing preserves emptiness. -/
lemma strLower_eq_empty_iff (s : String) : strLower s = "" ↔ s = "" := by
  constructor
  · intro h
    have hd : s.data.map Char.toLower = [] := by
      rw [← strLower_data, h]
    have hnil : s.data = [] := List.map_eq_nil_iff.mp hd
    cases s
    simp_all
  · intro h
    rw [h]
    rfl

/-- C9: for a non-empty domain, adding an already-present (lowercased)
domain is rejected with the set and count unchanged; otherwise the lowercase
form is inserted and returned true, after which membership holds for every
case variant and a second add of any case variant is rejected with the count
unchanged. -/
theorem blacklist_add_case_insensitive (bl : List String) (d : String) (hd : d ≠ "") :
    (bl.contains (strLower d) = true →
      blacklistAdd bl d = (false, bl) ∧ (blacklistAdd bl d).2.length = bl.length)
    ∧ (bl.contains (strLower d) = false →
        (blacklistAdd bl d).1 = true
        ∧ (blacklistAdd bl d).2 = strLower d :: bl
        ∧ (∀ c : String, strLower c = strLower d →
            is_blacklisted (blacklistAdd bl d).2 c = true)
        ∧ (∀ c : String, strLower c = strLower d →
            blacklistAdd (blacklistAdd bl d).2 c = (false, (blacklistAdd bl d).2)
            ∧ (blacklistAdd (blacklistAdd bl d).2 c).2.length =
                (blacklistAdd bl d).2.length)) := by
  constructor
  · intro h
    have heq : blacklistAdd bl d = (false, bl) := by
      unfold blacklistAdd
      rw [if_neg hd, if_pos h]
    exact ⟨heq, by rw [heq]⟩
  · intro h
    have heq : blacklistAdd bl d = (true, strLower d :: bl) := by
      unfold blacklistAdd
      rw [if_neg hd, if_neg (by rw [h]; exact Bool.false_ne_true)]
    have hmem : ∀ c : String, strLower c = strLower d →
        (strLower d :: bl).contains (strLower c) = true := by
      intro c hc
      rw [List.contains_cons, hc]
      simp
    have hcne : ∀ c : String, strLower c = strLower d → c ≠ "" := by
      intro c hc hem
      apply hd
      rw [← strLower_eq_empty_iff, ← hc, hem]
      rfl
    refine ⟨by rw [heq], by rw [heq], ?_, ?_⟩
    · intro c hc
      rw [heq]
      unfold is_blacklisted
      rw [if_neg (hcne c hc)]
      exact hmem c hc
    · intro c hc
      have h2 : blacklistAdd (strLower d :: bl) c = (false, strLower d :: bl) := by
        unfold blacklistAdd
        rw [if_neg (hcne c hc), if_pos (hmem c hc)]
      rw [heq]
      exact ⟨h2, by rw [h2]⟩

/-- Witness for C9 at a concrete blacklist and mixed-case domain. -/
theorem blacklist_add_case_insensitive_witness :
    (blacklistAdd ["fake-login.net"] "Phishing-Example.COM").1 = true
    ∧ is_blacklisted (blacklistAdd ["fake-login.net"] "Phishing-Example.COM").2
        "phishing-example.com" = true
    ∧ blacklistAdd (blacklistAdd ["fake-login.net"] "Phishing-Example.COM").2
        "PHISHING-EXAMPLE.com" =
        (false, (blacklistAdd ["fake-login.net"] "Phishing-Example.COM").2) := by
  have h := (blacklist_add_case_insensitive ["fake-login.net"] "Phishing-Example.COM"
    (by decide)).2 (by decide)
  exact ⟨h.1, h.2.2.1 "phishing-example.com" (by decide),
    (h.2.2.2 "PHISHING-EXAMPLE.com" (by decide)).1⟩

/-! Claim C3: the two-of-four login-intent rule.  The claim words indicator
(3) as a match against the URL path; the code searches the whole URL. -/

/-- Counts the true entries of an indicator list (the claim's "at least two
of these four indicators are true"). -/
def countTrue (bs : List Bool) : Nat :=
  (bs.filter (fun b => b)).length

/-- Remainder of a character list after the first `://`, when present. -/
def afterSchemeSep : List Char → Option (List Char)
  | [] => none
  | ':' :: '/' :: '/' :: rest => some rest
  | _ :: cs => afterSchemeSep cs

/-- Drops the authority: everything before the first `/`. -/
def dropUntilSlash : List Char → List Char
  | [] => []
  | c :: cs => if c = '/' then c :: cs else dropUntilSlash cs

/-- Cuts the path at the query or fragment delimiter. -/
def takeUntilQueryOrFragment : List Char → List Char
  | [] => []
  | c :: cs => if c = '?' ∨ c = '#' then [] else c :: takeUntilQueryOrFragment cs

/-- Modelled from the spec: the path component of a URL under standard URL
grammar (scheme, then authority up to the first slash, then the path up to
the query or fragment).  The repository itself never extracts the path — its
detector searches the whole URL string — so this definition follows the
claim's words; URL-structure handling is otherwise delegated to the Python
standard library, which is not part of src/. -/
def urlPath (url : String) : String :=
  ⟨takeUntilQueryOrFragment (dropUntilSlash ((afterSchemeSep url.data).getD url.data))⟩

/-- The four indicators exactly as claim C3 words them: POST method,
credential-bearing body, auth-endpoint substring in the URL *path*, and an
Authorization header. -/
def claimIndicators (r : AnalysisRequest) : List Bool :=
  [strUpper r.method == "POST",
   (match r.body with
    | none => false
    | some b => credentialPatterns.all fun fam => fam.any fun w => strContains (strLower b) w),
   authEndpoints.any (fun p => strContains (strLower (urlPath r.url)) p),
   r.headers.any (fun kv => strLower kv.1 == "authorization")]

/-- The four indicators with the third amended to match the code: the auth
endpoint substrings are searched in the *whole* lowercased URL. -/
def amendedIndicators (r : AnalysisRequest) : List Bool :=
  [strUpper r.method == "POST",
   (match r.body with
    | none => false
    | some b => credentialPatterns.all fun fam => fam.any fun w => strContains (strLower b) w),
   authEndpoints.any (fun p => strContains (strLower r.url) p),
   r.headers.any (fun kv => strLower kv.1 == "authorization")]

/-- A POST to a non-auth path whose query string mentions an auth endpoint:
the path is `/home`, yet the code's detector counts the URL substring
`/login` as an auth-endpoint indicator. -/
def c3Request : AnalysisRequest :=
  { url := "http://example.com/home?next=/login"
    method := "POST"
    headers := []
    body := none }

/-- C3 counterexample: the code's `detect` accepts this request (POST plus a
whole-URL auth-endpoint hit), but only one of the claim's four indicators is
true — the path `/home` matches no auth-endpoint pattern — so the claimed
equivalence fails. -/
theorem detect_path_claim_counterexample :
    detect c3Request = true
    ∧ countTrue (claimIndicators c3Request) = 1
    ∧ ¬(detect c3Request = true ↔ 2 ≤ countTrue (claimIndicators c3Request)) := by
  refine ⟨by decide, by decide, ?_⟩
  intro h
  have h2 := h.mp (by decide)
  have h1 : countTrue (claimIndicators c3Request) = 1 := by decide
  omega

/-- The map-then-member form of the header test equals the any-form used in
the claim's wording. -/
lemma hasAuthHeader_eq_any (headers : List (String × String)) :
    (headers.map (fun kv => strLower kv.1)).contains "authorization" =
      headers.any (fun kv => strLower kv.1 == "authorization") := by
  induction headers with
  | nil => rfl
  | cons kv t ih =>
    simp only [List.map_cons, List.contains_cons, List.any_cons, ih]
    congr 1
    rw [Bool.eq_iff_iff]
    simp only [beq_iff_eq]
    exact eq_comm

/-- C3 amended: `detect` returns true iff at least two of the four
indicators are true, where the auth-endpoint indicator matches the substring
patterns against the whole URL (not just its path). -/
theorem detect_iff_two_of_four (r : AnalysisRequest) :
    detect r = true ↔ 2 ≤ countTrue (amendedIndicators r) := by
  obtain ⟨url, method, headers, body⟩ := r
  have key : ∀ x1 x2 x3 x4 : Bool,
      ((2 ≤ [x1, x2, x3, x4].foldl (fun n b => n + (if b then 1 else 0)) 0 : Bool) = true ↔
        2 ≤ countTrue [x1, x2, x3, x4]) := by
    intro x1 x2 x3 x4
    cases x1 <;> cases x2 <;> cases x3 <;> cases x4 <;> decide
  have elist : amendedIndicators ⟨url, method, headers, body⟩ =
      [isPostMethod ⟨url, method, headers, body⟩,
       hasCredentialFields ⟨url, method, headers, body⟩,
       isAuthEndpoint ⟨url, method, headers, body⟩,
       hasAuthHeader ⟨url, method, headers, body⟩] := by
    simp only [amendedIndicators]
    rw [← hasAuthHeader_eq_any]
    rfl
  rw [elist]
  exact key (isPostMethod ⟨url, method, headers, body⟩)
    (hasCredentialFields ⟨url, method, headers, body⟩)
    (isAuthEndpoint ⟨url, method, headers, body⟩)
    (hasAuthHeader ⟨url, method, headers, body⟩)

/-- Witness for the amended C3: a bare POST is rejected, and the same POST
to a login endpoint is accepted. -/
theorem detect_iff_two_of_four_witness :
    detect { url := "https://example.com/submit", method := "POST" } = false
    ∧ detect { url := "https://example.com/login", method := "POST" } = true := by
  constructor
  · have h := detect_iff_two_of_four { url := "https://example.com/submit", method := "POST" }
    cases hv : detect { url := "https://example.com/submit", method := "POST" } with
    | false => rfl
    | true =>
      exfalso
      have h2 := h.mp hv
      have h1 : countTrue (amendedIndicators
          { url := "https://example.com/submit", method := "POST" }) = 1 := by decide
      omega
  · exact (detect_iff_two_of_four _).mpr (by decide)

end CredPhish
